import Mathlib

/-!
Verification of the SSE streaming subsystem (`src/helper/streaming/sse.ts`):
the message formatter inside `SSEStreamingApi.writeSSE`, the supervisor `run`,
and the stream-session state they act on.

Modelling conventions:
* JavaScript thrown values are `Thrown`: either a recognized `Error` carrying a
  message (`Thrown.errorVal`), or any other value (`Thrown.otherVal`).
* `message.data : string | Promise<string>` is `DataValue`: an immediate string
  or a deferred computation that resolves to a string or rejects.
* JS truthiness in `writeSSE` (`if (message.event)`, `if (message.retry)`) is
  embedded as the exact decidable tests: a string is truthy iff non-empty, a
  number iff non-zero (`retry` is an `Int`; `NaN` is out of this model).
* The producer callback and the error handler are arbitrary functions from the
  stream state to a new state plus an outcome (normal return or thrown value),
  covering all five producer outcomes, including a client abort mid-write
  (the callback may itself flip `closed` and then throw the `WriteError`).
-/

/-- A value thrown by JavaScript code: either a recognized `Error` (carrying its
`message`), or any other thrown value (`e instanceof Error` is false). -/
inductive Thrown where
  | errorVal (message : String)
  | otherVal
deriving DecidableEq, Repr

/-- Outcome of awaiting the producer callback or the user error handler:
normal return, or a thrown value. -/
inductive CbOutcome where
  | ok
  | threw (t : Thrown)
deriving DecidableEq, Repr

/-- `message.data : string | Promise<string>`: an immediate string, or a
deferred computation that either resolves to a string or rejects. -/
inductive DataValue where
  | str (s : String)
  | deferred (r : Except Thrown String)
deriving Repr

/-- Modelled from the spec: the value-resolution utility (`resolveCallback`,
not under `src/`), invoked with escaping disabled — it returns an immediate
string unchanged and awaits a deferred computation, propagating its
resolution or rejection. -/
def resolveData : DataValue → Except Thrown String
  | DataValue.str s => Except.ok s
  | DataValue.deferred r => r

/-- The `SSEMessage` interface: `data`, optional `event`, `id`, `retry`. -/
structure SSEMessage where
  data : DataValue
  event : Option String
  id : Option String
  retry : Option Int
deriving Repr

/-- `dataStr.includes('\n')` on the character list of the data string. -/
def hasNl : List Char → Bool
  | [] => false
  | c :: cs => c == '\n' || hasNl cs

/-- `dataStr.split('\n')`: split a character list at every newline, keeping
empty segments (JavaScript `String.prototype.split` with separator `"\n"`). -/
def splitNl : List Char → List (List Char)
  | [] => [[]]
  | c :: cs =>
    if c = '\n' then [] :: splitNl cs
    else
      match splitNl cs with
      | [] => [[c]]
      | l :: ls => (c :: l) :: ls

/-- Number of newline characters in a character list (the `k` of the spec's
"data containing k embedded newlines"). -/
def countNl : List Char → Nat
  | [] => 0
  | c :: cs => (if c = '\n' then 1 else 0) + countNl cs

/-- `if (message.event) sseData += ...`: append the `event:` line when the
event string is present and truthy (non-empty). -/
def addEvent (s : String) : Option String → String
  | none => s
  | some e => if e = "" then s else s ++ ("event: " ++ e ++ "\n")

/-- The data-lines step of `writeSSE`: if the data contains a newline, split it
and append one `data:` line per segment in a loop; otherwise append the single
`data:` line. -/
def addData (s : String) (dataStr : String) : String :=
  if hasNl dataStr.data then
    (splitNl dataStr.data).foldl (fun acc l => acc ++ ("data: " ++ String.mk l ++ "\n")) s
  else
    s ++ ("data: " ++ dataStr ++ "\n")

/-- `if (message.id) sseData += ...`: append the `id:` line when the id string
is present and truthy (non-empty). -/
def addId (s : String) : Option String → String
  | none => s
  | some i => if i = "" then s else s ++ ("id: " ++ i ++ "\n")

/-- `if (message.retry) sseData += ...`: append the `retry:` line when the
retry number is present and truthy (non-zero); the value is rendered in
decimal exactly as the template literal does. -/
def addRetry (s : String) : Option Int → String
  | none => s
  | some r => if r = 0 then s else s ++ ("retry: " ++ toString r ++ "\n")

/-- The pure formatting core of `SSEStreamingApi.writeSSE` (source lines
23–52), applied to the already-resolved data string: build `sseData` by the
event step, the data-lines step, the id step, the retry step, then append the
final blank-line newline. -/
def formatMessage (event : Option String) (dataStr : String)
    (id : Option String) (retry : Option Int) : String :=
  addRetry (addId (addData (addEvent "" event) dataStr) id) retry ++ "\n"

/-- Per-field wire text as the spec words it: nothing when the field is absent
or empty, otherwise `<name>: <value>\n`. -/
def optField (name : String) : Option String → String
  | none => ""
  | some v => if v = "" then "" else name ++ ": " ++ v ++ "\n"

/-- The spec's `retry` field text: absent or zero gives nothing, otherwise
`retry: <decimal>\n`. -/
def retryField : Option Int → String
  | none => ""
  | some r => if r = 0 then "" else "retry: " ++ toString r ++ "\n"

/-- The list of `data: <line>\n` lines, one per newline-separated segment of
the data string, in original order. -/
def dataLines (dataStr : String) : List String :=
  (splitNl dataStr.data).map (fun l => "data: " ++ String.mk l ++ "\n")

/-- Concatenation of a list of lines into one string. -/
def concatLines : List String → String
  | [] => ""
  | s :: ss => s ++ concatLines ss

/-- The frame as the spec describes it: optional `event:` line, the `data:`
lines in order, optional `id:` line, optional `retry:` line, one terminating
bare newline — in that fixed field order. -/
def formatMessageSpec (event : Option String) (dataStr : String)
    (id : Option String) (retry : Option Int) : String :=
  optField "event" event ++ concatLines (dataLines dataStr) ++ optField "id" id
    ++ retryField retry ++ "\n"

/-- One SSE stream session: the monotonic `closed` flag, the frames accepted by
the underlying writable side, and the ambient diagnostic channel
(`console.error`) as a list of reported values. -/
structure StreamState where
  closed : Bool
  written : List String
  logged : List Thrown
deriving DecidableEq, Repr

/-- Modelled from the spec: the duplex-stream primitive's `write` (the
`StreamingApi` base class is not under `src/`); per §4.2 a write fails with a
WriteError when the stream is already closed, and otherwise hands the whole
string to the transport. -/
def streamWrite (st : StreamState) (input : String) : Except Unit StreamState :=
  if st.closed then Except.error ()
  else Except.ok { st with written := st.written ++ [input] }

/-- Modelled from the spec: the duplex-stream primitive's `close` — it ends the
stream, setting the monotonic `closed` flag. -/
def streamClose (st : StreamState) : StreamState :=
  { st with closed := true }

/-- `console.error(e)`: report a thrown value to the ambient diagnostic
channel. -/
def consoleError (st : StreamState) (t : Thrown) : StreamState :=
  { st with logged := st.logged ++ [t] }

/-- The two failure modes of `writeSSE`: the deferred data value rejected (with
the rejection value), or the underlying write failed on a closed stream. -/
inductive WriteErr where
  | resolveFailed (t : Thrown)
  | streamClosed
deriving DecidableEq, Repr

/-- The thrown value a `writeSSE` failure surfaces as: a rejected deferred
propagates its own rejection value; a failed transport write raises a
recognized WriteError. -/
def thrownOfWriteErr : WriteErr → Thrown
  | WriteErr.resolveFailed t => t
  | WriteErr.streamClosed => Thrown.errorVal "WriteError"

/-- `SSEStreamingApi.writeSSE`: first `await resolveCallback(message.data, …)`;
if resolution rejects, the method rejects with nothing written; otherwise the
frame is assembled in full and passed to the underlying `write` in a single
call. -/
def writeSSE (st : StreamState) (message : SSEMessage) : Except WriteErr StreamState :=
  match resolveData message.data with
  | Except.error t => Except.error (WriteErr.resolveFailed t)
  | Except.ok d =>
    match streamWrite st (formatMessage message.event d message.id message.retry) with
    | Except.error _ => Except.error WriteErr.streamClosed
    | Except.ok st2 => Except.ok st2

/-- Result of the supervisor `run`: the final stream state, the number of times
the guaranteed-close step (`finally { stream.close() }`) executed, and the
value (if any) that propagates out of `run`'s promise. -/
structure RunResult where
  state : StreamState
  closes : Nat
  propagated : Option Thrown
deriving DecidableEq, Repr

/-- The `finally` block of `run`: execute the guaranteed-close step once, then
let any still-pending thrown value propagate. -/
def finallyClose (st : StreamState) (p : Option Thrown) : RunResult :=
  { state := streamClose st, closes := 1, propagated := p }

/-- The `catch (e)` block of `run`: when `e instanceof Error && onError`,
await the handler (a handler that throws is not caught here and skips the
error frame), then write the one `event: "error"` frame carrying `e.message`
(a failure of that write propagates); every other thrown value goes to
`console.error(e)` and is swallowed. Control then reaches the `finally`
block. -/
def runCatch (t : Thrown)
    (onError : Option (String → StreamState → StreamState × CbOutcome))
    (st1 : StreamState) : RunResult :=
  match t, onError with
  | Thrown.errorVal msg, some handler =>
    match handler msg st1 with
    | (st2, CbOutcome.ok) =>
      match writeSSE st2 ⟨DataValue.str msg, some "error", none, none⟩ with
      | Except.ok st3 => finallyClose st3 none
      | Except.error we => finallyClose st2 (some (thrownOfWriteErr we))
    | (st2, CbOutcome.threw ht) => finallyClose st2 (some ht)
  | t, _ => finallyClose (consoleError st1 t) none

/-- The supervisor `run` (source lines 58–79): `try { await cb(stream) }`
followed by the catch block on a thrown value and the unconditional
`finally { stream.close() }`. The producer callback is any function from the
stream state to a new state and an outcome. -/
def run (st : StreamState)
    (cb : StreamState → StreamState × CbOutcome)
    (onError : Option (String → StreamState → StreamState × CbOutcome)) : RunResult :=
  match cb st with
  | (st1, CbOutcome.ok) => finallyClose st1 none
  | (st1, CbOutcome.threw t) => runCatch t onError st1

/-- A fresh stream session: open, nothing written, nothing logged. -/
def initialStream : StreamState :=
  { closed := false, written := [], logged := [] }

/-- Concrete producer that throws `new Error("boom")`. -/
def cbBoom : StreamState → StreamState × CbOutcome :=
  fun s => (s, CbOutcome.threw (Thrown.errorVal "boom"))

/-- Concrete producer that throws a non-`Error` value. -/
def cbOther : StreamState → StreamState × CbOutcome :=
  fun s => (s, CbOutcome.threw Thrown.otherVal)

/-- Concrete error handler that returns normally without touching the
stream. -/
def handlerOk : String → StreamState → StreamState × CbOutcome :=
  fun _ s => (s, CbOutcome.ok)

/-- Concrete error handler that itself throws a non-`Error` value. -/
def handlerThrows : String → StreamState → StreamState × CbOutcome :=
  fun _ s => (s, CbOutcome.threw Thrown.otherVal)

theorem strMk_data (s : String) : String.mk s.data = s := by
  cases s
  rfl

theorem splitNl_ne_nil (cs : List Char) : splitNl cs ≠ [] := by
  induction cs with
  | nil => simp [splitNl]
  | cons c cs ih =>
    by_cases hc : c = '\n'
    · simp [splitNl, hc]
    · simp only [splitNl, if_neg hc]
      rcases h : splitNl cs with _ | ⟨l, ls⟩
      · simp
      · simp

theorem splitNl_length (cs : List Char) : (splitNl cs).length = countNl cs + 1 := by
  induction cs with
  | nil => simp [splitNl, countNl]
  | cons c cs ih =>
    by_cases hc : c = '\n'
    · simp [splitNl, countNl, hc, ih]
      omega
    · simp only [splitNl, countNl, if_neg hc]
      rcases h : splitNl cs with _ | ⟨l, ls⟩
      · exact absurd h (splitNl_ne_nil cs)
      · rw [h] at ih
        simp at ih ⊢
        omega

theorem splitNl_of_not_hasNl (cs : List Char) (h : hasNl cs = false) :
    splitNl cs = [cs] := by
  induction cs with
  | nil => rfl
  | cons c cs ih =>
    simp only [hasNl, Bool.or_eq_false_iff] at h
    have hc : ¬ c = '\n' := by
      intro hceq
      rw [hceq] at h
      simp at h
    simp [splitNl, hc, ih h.2]

theorem foldl_append_concatLines (L : List (List Char)) (s : String) :
    L.foldl (fun acc l => acc ++ ("data: " ++ String.mk l ++ "\n")) s
      = s ++ concatLines (L.map (fun l => "data: " ++ String.mk l ++ "\n")) := by
  induction L generalizing s with
  | nil => simp [concatLines]
  | cons l ls ih =>
    simp only [List.foldl_cons, List.map_cons, concatLines]
    rw [ih]
    simp [String.append_assoc]

theorem addEvent_eq (s : String) (e : Option String) :
    addEvent s e = s ++ optField "event" e := by
  cases e with
  | none => simp [addEvent, optField]
  | some v => by_cases h : v = "" <;> simp [addEvent, optField, h]

theorem addId_eq (s : String) (i : Option String) :
    addId s i = s ++ optField "id" i := by
  cases i with
  | none => simp [addId, optField]
  | some v => by_cases h : v = "" <;> simp [addId, optField, h]

theorem addRetry_eq (s : String) (r : Option Int) :
    addRetry s r = s ++ retryField r := by
  cases r with
  | none => simp [addRetry, retryField]
  | some v => by_cases h : v = 0 <;> simp [addRetry, retryField, h]

theorem addData_eq (s d : String) : addData s d = s ++ concatLines (dataLines d) := by
  unfold addData dataLines
  by_cases h : hasNl d.data
  · simp only [h, if_true]
    rw [foldl_append_concatLines]
  · simp only [Bool.not_eq_true] at h
    simp [h, splitNl_of_not_hasNl d.data h, concatLines, strMk_data]

theorem formatMessage_eq_spec (e : Option String) (d : String)
    (i : Option String) (r : Option Int) :
    formatMessage e d i r = formatMessageSpec e d i r := by
  unfold formatMessage formatMessageSpec
  rw [addEvent_eq, addData_eq, addId_eq, addRetry_eq]
  simp [String.append_assoc]

theorem runCatch_close (t : Thrown)
    (onError : Option (String → StreamState → StreamState × CbOutcome))
    (st1 : StreamState) :
    (runCatch t onError st1).closes = 1
      ∧ (runCatch t onError st1).state.closed = true := by
  unfold runCatch
  repeat' split
  all_goals simp [finallyClose, streamClose]

/-- C1: for every producer outcome — normal return, recognized error with or
without a handler, unrecognized thrown value, or a client abort mid-write
(all covered by quantifying over the callback's behavior, including callbacks
that close the stream and then throw) — after `run` returns, the guaranteed
`finally { stream.close() }` step has executed exactly once, and the stream's
`closed` flag is true, as the close step is the final state change. -/
theorem run_always_closes_exactly_once (st : StreamState)
    (cb : StreamState → StreamState × CbOutcome)
    (onError : Option (String → StreamState → StreamState × CbOutcome)) :
    (run st cb onError).closes = 1 ∧ (run st cb onError).state.closed = true := by
  unfold run
  split
  · simp [finallyClose, streamClose]
  · apply runCatch_close

/-- C2: with its data resolved to a string, the formatter's output is exactly
the optional `event:` line (present and non-empty), then one `data:` line per
newline-separated segment of the data in original order — for data with k
embedded newlines that is exactly k+1 lines, and the empty string still gives
the single line `data: \n` — then the optional `id:` line (present and
non-empty), the optional `retry:` line, and exactly one terminating bare
newline, in that fixed field order. -/
theorem formatMessage_wire_format (e : Option String) (d : String)
    (i : Option String) (r : Option Int) :
    formatMessage e d i r = formatMessageSpec e d i r
      ∧ (dataLines d).length = countNl d.data + 1
      ∧ dataLines "" = ["data: \n"] := by
  refine ⟨formatMessage_eq_spec e d i r, ?_, ?_⟩
  · unfold dataLines
    simp [splitNl_length]
  · rfl

/-- C3: a producer that throws a recognized `Error` while a handler is
supplied makes `run` invoke the handler and then write exactly one more frame
with event `error` and the error's message as data; with `Error("boom")` that
final frame is `"event: error\ndata: boom\n\n"`. -/
theorem run_handler_error_frame (st st1 st2 : StreamState)
    (cb : StreamState → StreamState × CbOutcome)
    (handler : String → StreamState → StreamState × CbOutcome) (msg : String)
    (h1 : cb st = (st1, CbOutcome.threw (Thrown.errorVal msg)))
    (h2 : handler msg st1 = (st2, CbOutcome.ok))
    (h3 : st2.closed = false) :
    (run st cb (some handler)).state.written
        = st2.written ++ [formatMessage (some "error") msg none none]
      ∧ formatMessage (some "error") "boom" none none = "event: error\ndata: boom\n\n" := by
  have hw : writeSSE st2 ⟨DataValue.str msg, some "error", none, none⟩
      = Except.ok { st2 with
          written := st2.written ++ [formatMessage (some "error") msg none none] } := by
    unfold writeSSE resolveData streamWrite
    simp [h3]
  have hr : run st cb (some handler)
      = finallyClose { st2 with
          written := st2.written ++ [formatMessage (some "error") msg none none] } none := by
    unfold run
    rw [h1]
    dsimp only
    unfold runCatch
    dsimp only
    rw [h2]
    dsimp only
    rw [hw]
  constructor
  · rw [hr]
    simp [finallyClose, streamClose]
  · decide

/-- C3 witness: the concrete `Error("boom")` scenario with a handler that
returns normally. -/
theorem run_handler_error_frame_witness :
    cbBoom initialStream = (initialStream, CbOutcome.threw (Thrown.errorVal "boom"))
      ∧ handlerOk "boom" initialStream = (initialStream, CbOutcome.ok)
      ∧ initialStream.closed = false
      ∧ ((run initialStream cbBoom (some handlerOk)).state.written
            = initialStream.written ++ [formatMessage (some "error") "boom" none none]
         ∧ formatMessage (some "error") "boom" none none
            = "event: error\ndata: boom\n\n") :=
  ⟨rfl, rfl, rfl,
    run_handler_error_frame initialStream initialStream initialStream cbBoom handlerOk
      "boom" rfl rfl rfl⟩

/-- C4 counterexample: an unrecognized thrown value is not silently discarded —
a producer throwing a non-`Error` value leaves that value reported on the
ambient diagnostic channel (`console.error`), so the diagnostic log is not
empty after `run` returns. -/
theorem run_logs_unrecognized_value :
    (run initialStream cbOther none).state.logged = [Thrown.otherVal] := by
  rfl

/-- C4 amended: unrecognized thrown values are swallowed in all branches — no
frame is written for them and nothing propagates out of `run` — but they are
reported to `console.error` (not silently discarded), whether or not a handler
was supplied. -/
theorem run_swallows_and_logs_unrecognized (st st1 : StreamState)
    (cb : StreamState → StreamState × CbOutcome)
    (onError : Option (String → StreamState → StreamState × CbOutcome))
    (h1 : cb st = (st1, CbOutcome.threw Thrown.otherVal)) :
    (run st cb onError).state.logged = st1.logged ++ [Thrown.otherVal]
      ∧ (run st cb onError).state.written = st1.written
      ∧ (run st cb onError).propagated = none := by
  have hr : run st cb onError = finallyClose (consoleError st1 Thrown.otherVal) none := by
    unfold run
    rw [h1]
    cases onError <;> rfl
  rw [hr]
  simp [finallyClose, streamClose, consoleError]

/-- C4 amended witness: the non-`Error` throw with a handler supplied still
lands on the diagnostic channel and is swallowed. -/
theorem run_swallows_and_logs_unrecognized_witness :
    cbOther initialStream = (initialStream, CbOutcome.threw Thrown.otherVal)
      ∧ ((run initialStream cbOther (some handlerOk)).state.logged
            = initialStream.logged ++ [Thrown.otherVal]
         ∧ (run initialStream cbOther (some handlerOk)).state.written = initialStream.written
         ∧ (run initialStream cbOther (some handlerOk)).propagated = none) :=
  ⟨rfl,
    run_swallows_and_logs_unrecognized initialStream initialStream cbOther
      (some handlerOk) rfl⟩

/-- C5: a producer that throws a recognized `Error` with no handler supplied
makes `run` report the error to `console.error`, swallow it (nothing
propagates), close the session normally, and write no frame for it. -/
theorem run_no_handler_swallows_and_closes (st st1 : StreamState)
    (cb : StreamState → StreamState × CbOutcome) (msg : String)
    (h1 : cb st = (st1, CbOutcome.threw (Thrown.errorVal msg))) :
    (run st cb none).state.logged = st1.logged ++ [Thrown.errorVal msg]
      ∧ (run st cb none).state.written = st1.written
      ∧ (run st cb none).propagated = none
      ∧ (run st cb none).state.closed = true := by
  have hr : run st cb none = finallyClose (consoleError st1 (Thrown.errorVal msg)) none := by
    unfold run
    rw [h1]
    rfl
  rw [hr]
  simp [finallyClose, streamClose, consoleError]

/-- C5 witness: `Error("boom")` with no handler. -/
theorem run_no_handler_swallows_and_closes_witness :
    cbBoom initialStream = (initialStream, CbOutcome.threw (Thrown.errorVal "boom"))
      ∧ ((run initialStream cbBoom none).state.logged
            = initialStream.logged ++ [Thrown.errorVal "boom"]
         ∧ (run initialStream cbBoom none).state.written = initialStream.written
         ∧ (run initialStream cbBoom none).propagated = none
         ∧ (run initialStream cbBoom none).state.closed = true) :=
  ⟨rfl, run_no_handler_swallows_and_closes initialStream initialStream cbBoom "boom" rfl⟩

/-- C6: a handler that itself throws is not caught by `run`: the thrown value
propagates out, the `event: "error"` frame is not written, and the guaranteed
close step still executes exactly once afterward. -/
theorem run_handler_throw_propagates (st st1 st2 : StreamState)
    (cb : StreamState → StreamState × CbOutcome)
    (handler : String → StreamState → StreamState × CbOutcome) (msg : String) (t : Thrown)
    (h1 : cb st = (st1, CbOutcome.threw (Thrown.errorVal msg)))
    (h2 : handler msg st1 = (st2, CbOutcome.threw t)) :
    (run st cb (some handler)).propagated = some t
      ∧ (run st cb (some handler)).state.written = st2.written
      ∧ (run st cb (some handler)).state.closed = true
      ∧ (run st cb (some handler)).closes = 1 := by
  have hr : run st cb (some handler) = finallyClose st2 (some t) := by
    unfold run
    rw [h1]
    dsimp only
    unfold runCatch
    dsimp only
    rw [h2]
  rw [hr]
  simp [finallyClose, streamClose]

/-- C6 witness: `Error("boom")` with a handler that throws a non-`Error`
value. -/
theorem run_handler_throw_propagates_witness :
    cbBoom initialStream = (initialStream, CbOutcome.threw (Thrown.errorVal "boom"))
      ∧ handlerThrows "boom" initialStream = (initialStream, CbOutcome.threw Thrown.otherVal)
      ∧ ((run initialStream cbBoom (some handlerThrows)).propagated = some Thrown.otherVal
         ∧ (run initialStream cbBoom (some handlerThrows)).state.written = initialStream.written
         ∧ (run initialStream cbBoom (some handlerThrows)).state.closed = true
         ∧ (run initialStream cbBoom (some handlerThrows)).closes = 1) :=
  ⟨rfl, rfl,
    run_handler_throw_propagates initialStream initialStream initialStream cbBoom
      handlerThrows "boom" Thrown.otherVal rfl rfl⟩

/-- C7: a `retry` of exactly 0 is treated as absent (no `retry:` line), while
every `retry` value ≥ 1 appears as a `retry:` line carrying the value in
decimal. -/
theorem retry_zero_omitted_positive_kept (e : Option String) (d : String)
    (i : Option String) (r : Int) (hr : 1 ≤ r) :
    formatMessage e d i (some 0) = formatMessage e d i none
      ∧ formatMessage e d i (some r)
          = optField "event" e ++ concatLines (dataLines d) ++ optField "id" i
              ++ ("retry: " ++ toString r ++ "\n") ++ "\n" := by
  constructor
  · rw [formatMessage_eq_spec, formatMessage_eq_spec]
    unfold formatMessageSpec retryField
    simp
  · rw [formatMessage_eq_spec]
    unfold formatMessageSpec retryField
    have hz : ¬ r = 0 := by omega
    simp [hz]

/-- C7 witness: `retry = 0` omitted and `retry = 3000` emitted in decimal. -/
theorem retry_zero_omitted_positive_kept_witness :
    (1 ≤ (3000 : Int))
      ∧ (formatMessage none "x" none (some 0) = formatMessage none "x" none none
         ∧ formatMessage none "x" none (some 3000)
            = optField "event" none ++ concatLines (dataLines "x") ++ optField "id" none
                ++ ("retry: " ++ toString (3000 : Int) ++ "\n") ++ "\n") :=
  ⟨by decide, retry_zero_omitted_positive_kept none "x" none 3000 (by decide)⟩

/-- C8: no value escaping is performed: whatever non-empty `event` and `id`
strings and non-zero `retry` number the caller passes — control characters
included, since the strings are arbitrary — are embedded verbatim in their
output lines. -/
theorem fields_embedded_verbatim (e d i : String) (r : Int)
    (he : e ≠ "") (hi : i ≠ "") (hr : r ≠ 0) :
    formatMessage (some e) d (some i) (some r)
      = ("event: " ++ e ++ "\n") ++ concatLines (dataLines d)
          ++ ("id: " ++ i ++ "\n") ++ ("retry: " ++ toString r ++ "\n") ++ "\n" := by
  rw [formatMessage_eq_spec]
  unfold formatMessageSpec optField retryField
  simp [he, hi, hr]

/-- C8 witness: an `event` holding a carriage return and an `id` holding a
newline pass through verbatim. -/
theorem fields_embedded_verbatim_witness :
    ("a\rb" ≠ "")
      ∧ ("i\nj" ≠ "")
      ∧ ((7 : Int) ≠ 0)
      ∧ formatMessage (some "a\rb") "d" (some "i\nj") (some 7)
          = ("event: " ++ "a\rb" ++ "\n") ++ concatLines (dataLines "d")
              ++ ("id: " ++ "i\nj" ++ "\n") ++ ("retry: " ++ toString (7 : Int) ++ "\n") ++ "\n" :=
  ⟨by decide, by decide, by decide,
    fields_embedded_verbatim "a\rb" "d" "i\nj" 7 (by decide) (by decide) (by decide)⟩

/-- C9: `writeSSE` is atomic: the deferred data value is resolved before any
output is produced, and on success the whole frame reaches the underlying
write in one call (exactly one element is appended); if resolution of a
deferred data value fails, `writeSSE` fails and nothing — not even a partial
frame — is written. -/
theorem writeSSE_atomic (st : StreamState) (message : SSEMessage) :
    (∀ t, resolveData message.data = Except.error t →
        writeSSE st message = Except.error (WriteErr.resolveFailed t))
      ∧ (∀ d, resolveData message.data = Except.ok d → st.closed = false →
          writeSSE st message
            = Except.ok { st with written := st.written
                ++ [formatMessage message.event d message.id message.retry] }) := by
  constructor
  · intro t ht
    unfold writeSSE
    rw [ht]
  · intro d hd hc
    unfold writeSSE
    rw [hd]
    unfold streamWrite
    simp [hc]

/-- C9 witness: a rejecting deferred data value fails with nothing written,
and a plain string is written as one whole frame. -/
theorem writeSSE_atomic_witness :
    resolveData (DataValue.deferred (Except.error Thrown.otherVal)) = Except.error Thrown.otherVal
      ∧ writeSSE initialStream ⟨DataValue.deferred (Except.error Thrown.otherVal), none, none, none⟩
          = Except.error (WriteErr.resolveFailed Thrown.otherVal)
      ∧ resolveData (DataValue.str "hello") = Except.ok "hello"
      ∧ initialStream.closed = false
      ∧ writeSSE initialStream ⟨DataValue.str "hello", none, none, none⟩
          = Except.ok { initialStream with
              written := initialStream.written ++ [formatMessage none "hello" none none] } :=
  ⟨rfl,
    (writeSSE_atomic initialStream
      ⟨DataValue.deferred (Except.error Thrown.otherVal), none, none, none⟩).1
      Thrown.otherVal rfl,
    rfl, rfl,
    (writeSSE_atomic initialStream ⟨DataValue.str "hello", none, none, none⟩).2
      "hello" rfl rfl⟩

/-- C10: the data model's non-negativity constraint on `retry` is not enforced:
a negative `retry` is truthy, so its `retry:` line is emitted carrying the
negative number verbatim — in particular `retry = -1` yields `retry: -1\n`. -/
theorem negative_retry_emitted_verbatim (e i : Option String) (d : String) (r : Int)
    (hr : r < 0) :
    formatMessage e d i (some r)
      = optField "event" e ++ concatLines (dataLines d) ++ optField "id" i
          ++ ("retry: " ++ toString r ++ "\n") ++ "\n" := by
  rw [formatMessage_eq_spec]
  unfold formatMessageSpec retryField
  have hz : ¬ r = 0 := by omega
  simp [hz]

/-- C10 witness: `retry = -1` emits the line `retry: -1` verbatim. -/
theorem negative_retry_emitted_verbatim_witness :
    ((-1 : Int) < 0)
      ∧ formatMessage none "x" none (some (-1)) = "data: x\nretry: -1\n\n" :=
  ⟨by decide, by
    rw [negative_retry_emitted_verbatim none none "x" (-1) (by decide)]
    decide⟩
